import Mathlib

/-!
Shallow embedding of the query-understanding and retrieval engine of the
glafrica repository (backend/api/services/ai.py, backend/api/models.py,
backend/api/views.py).  Strings are modelled as lists of characters after
Python's `str.lower`; the relational catalog is modelled as a list of rows;
Django querysets become list filters.
-/

namespace Glafrica

/-- Lower-cased character list of a string, modelling Python `str.lower()`
(ASCII range, which covers every keyword table in the source). -/
def lc (s : String) : List Char := s.toList.map Char.toLower

/-- Substring containment on character lists (Python's `needle in hay`). -/
def infixOf (needle : List Char) : List Char → Bool
  | [] => needle.isEmpty
  | c :: t => needle.isPrefixOf (c :: t) || infixOf needle t

/-- Python `kw in query_lower`: substring containment of a (lower-case)
keyword in the lowered query. -/
def containsKw (ql : List Char) (kw : String) : Bool :=
  infixOf kw.toList ql

/-- Django `field__icontains=term`: case-insensitive substring match. -/
def icontains (field : String) (term : String) : Bool :=
  infixOf (lc term) (lc field)

/-- Word characters of the regex class `\w` (ASCII). -/
def isWordChar (c : Char) : Bool := c.isAlphanum || c == '_'

/-- Python `s.strip()`: the characters of `s` with leading and trailing
whitespace removed (its truthiness is non-emptiness). -/
def pyStrip (s : String) : List Char :=
  ((s.toList.dropWhile Char.isWhitespace).reverse.dropWhile Char.isWhitespace).reverse

/-- Accumulator splitting a character list into maximal runs of word
characters; models `re.findall(r'\b\w+\b', s)`. -/
def wordRunsAux : List Char → List Char → List (List Char)
  | [], acc => if acc.isEmpty then [] else [acc.reverse]
  | c :: t, acc =>
      if isWordChar c then wordRunsAux t (c :: acc)
      else if acc.isEmpty then wordRunsAux t [] else acc.reverse :: wordRunsAux t []

/-- Maximal word-character runs of a character list. -/
def wordRuns (l : List Char) : List (List Char) := wordRunsAux l []

/-- Tokens matched by `re.findall(r'\b\w+\b', q)` as strings. -/
def findWords (ql : List Char) : List String :=
  (wordRuns ql).map (fun r => String.mk r)

/-- Tokens matched by `re.findall(r'\b\w{3,}\b', q)`: maximal word runs of
length at least 3. -/
def findWords3 (ql : List Char) : List String :=
  ((wordRuns ql).filter (fun r => 3 ≤ r.length)).map (fun r => String.mk r)

/-- Numeric value of a digit list (most significant first). -/
def digitsToNat (l : List Char) : Nat :=
  l.foldl (fun n c => 10 * n + (c.toNat - '0'.toNat)) 0

/-- Matches the tail of the livestock price regexes, `\s*(\d+[k,]?\d*)`,
and applies Python's `group(1).replace('k', '000').replace(',', '')`
followed by `int(...)` (the digits are non-empty, so `int` cannot fail). -/
def parseAmount (l : List Char) : Option Nat :=
  let r := l.dropWhile Char.isWhitespace
  let ds := r.takeWhile Char.isDigit
  if ds.isEmpty then none
  else
    match r.drop ds.length with
    | 'k' :: rest => some (digitsToNat (ds ++ ['0', '0', '0'] ++ rest.takeWhile Char.isDigit))
    | ',' :: rest => some (digitsToNat (ds ++ rest.takeWhile Char.isDigit))
    | _ => some (digitsToNat ds)

/-- Matches the tail of the egg price regex, `\s*₦?\s*(\d+[k,]?\d*)`. -/
def parseAmountEgg (l : List Char) : Option Nat :=
  let r := l.dropWhile Char.isWhitespace
  let r2 := match r with
    | '₦' :: t => t.dropWhile Char.isWhitespace
    | _ => r
  parseAmount r2

/-- Leftmost-match scan of `re.search`: try the pattern at every position,
left to right. -/
def reSearch (pat : List Char → Option Nat) : List Char → Option Nat
  | [] => pat []
  | c :: t =>
    match pat (c :: t) with
    | some n => some n
    | none => reSearch pat t

/-- Anchored match of a literal keyword followed by an amount pattern. -/
def matchKwAmount (kw : String) (parse : List Char → Option Nat) (l : List Char) :
    Option Nat :=
  if kw.toList.isPrefixOf l then parse (l.drop kw.length) else none

/-- Result of `re.search(kw + r'\s*(\d+[k,]?\d*)', ql)` converted to an int. -/
def searchPrice (kw : String) (ql : List Char) : Option Nat :=
  reSearch (matchKwAmount kw parseAmount) ql

/-- Result of `re.search(r'under\s*₦?\s*(\d+[k,]?\d*)', ql)` for eggs. -/
def searchPriceEgg (ql : List Char) : Option Nat :=
  reSearch (matchKwAmount "under" parseAmountEgg) ql

/-- Conditional queryset filter: Python `if cond: queryset = queryset.filter(p)`. -/
def maybeFilter (cond : Bool) (p : α → Bool) (l : List α) : List α :=
  if cond then l.filter p else l

/-- Insert an element in front of the first element it beats. -/
def insertByGt (gt : α → α → Bool) (a : α) : List α → List α
  | [] => [a]
  | b :: t => if gt a b then a :: b :: t else b :: insertByGt gt a t

/-- Insertion sort used to model Django `order_by`. -/
def sortByGt (gt : α → α → Bool) (l : List α) : List α :=
  l.foldr (insertByGt gt) []

theorem mem_insertByGt {gt : α → α → Bool} {a x : α} {l : List α} :
    x ∈ insertByGt gt a l ↔ x = a ∨ x ∈ l := by
  induction l with
  | nil => simp [insertByGt]
  | cons b t ih =>
      by_cases h : gt a b = true
      · simp [insertByGt, h]
      · simp only [insertByGt, h, if_neg]
        simp [List.mem_cons, ih]
        tauto

theorem mem_sortByGt {gt : α → α → Bool} {x : α} {l : List α} :
    x ∈ sortByGt gt l ↔ x ∈ l := by
  induction l with
  | nil => simp [sortByGt]
  | cons b t ih =>
      simp only [sortByGt, List.foldr_cons] at *
      rw [mem_insertByGt, ih]
      simp [List.mem_cons]

theorem maybeFilter_subset (cond : Bool) (p : α → Bool) (l : List α) :
    ∀ x ∈ maybeFilter cond p l, x ∈ l := by
  intro x hx
  unfold maybeFilter at hx
  by_cases h : cond = true
  · rw [if_pos h] at hx; exact List.mem_of_mem_filter hx
  · rw [if_neg h] at hx; exact hx

/-- Row of the livestock catalog (api/models.py `Livestock`), projected onto
the fields the retrieval engine reads.  Dates are day numbers, prices are
integers, tags are the related tag names. -/
structure LivestockRec where
  name : String
  breed : String
  description : String
  health_status : String
  location : String
  category_name : String
  gender : String
  tags : List String
  price : Int
  is_sold : Bool
  created_at : Int
deriving DecidableEq, Repr

/-- Row of the egg catalog (api/models.py `Egg`), projected onto the fields
the retrieval engine reads. -/
structure EggRec where
  name : String
  breed : String
  description : String
  location : String
  category_name : String
  category_slug : String
  egg_type : String
  size : String
  packaging : String
  price : Int
  expiry_date : Option Int
  is_available : Bool
  is_featured : Bool
  created_at : Int
deriving DecidableEq, Repr

/-- Intent returned by `AIService._detect_query_intent`. -/
structure Intent where
  livestock : Bool
  eggs : Bool
deriving DecidableEq, Repr

/-- Egg-specific keywords of `_detect_query_intent` (ai.py lines 46-50). -/
def egg_keywords : List String :=
  ["egg", "eggs", "crate", "tray", "dozen", "hatching", "fertilized",
   "fresh eggs", "organic eggs", "free range", "table eggs", "laying",
   "yolk", "shell", "incubation"]

/-- Livestock-only keywords of `_detect_query_intent` (ai.py lines 53-59). -/
def livestock_only_keywords : List String :=
  ["cattle", "cow", "cows", "bull", "bulls", "calf", "calves", "beef",
   "goat", "goats", "buck", "doe", "kid", "boer", "kalahari",
   "sheep", "ram", "ewe", "lamb", "lambs", "wool",
   "pig", "pigs", "swine", "hog", "sow", "piglet", "pork",
   "livestock", "animal", "animals", "breeding stock", "herd"]

/-- Poultry keywords of `_detect_query_intent` (ai.py lines 62-66). -/
def poultry_keywords : List String :=
  ["chicken", "chickens", "poultry", "hen", "rooster", "cockerel",
   "turkey", "turkeys", "duck", "ducks", "quail", "guinea fowl",
   "broiler", "layer", "noiler"]

/-- AIService._detect_query_intent (ai.py lines 38-84): decide whether a
query targets the livestock catalog, the egg catalog, or both. -/
def detect_query_intent (query : String) : Intent :=
  let ql := lc query
  let has_egg := egg_keywords.any (fun kw => containsKw ql kw)
  let has_livestock := livestock_only_keywords.any (fun kw => containsKw ql kw)
  let has_poultry := poultry_keywords.any (fun kw => containsKw ql kw)
  if has_egg then ⟨false, true⟩
  else if has_livestock then ⟨true, false⟩
  else if has_poultry then ⟨true, true⟩
  else ⟨true, true⟩

/-- Category keyword table of `_extract_search_terms` (ai.py lines 94-100),
in source (insertion) order. -/
def category_keywords : List (String × List String) :=
  [("cattle", ["cattle", "cow", "cows", "bull", "bulls", "calf", "calves", "beef", "dairy"]),
   ("goats", ["goat", "goats", "buck", "doe", "kid", "boer", "kalahari"]),
   ("sheep", ["sheep", "ram", "ewe", "lamb", "lambs", "wool"]),
   ("poultry", ["chicken", "chickens", "poultry", "rooster", "hen", "chicks", "broiler", "layer"]),
   ("pigs", ["pig", "pigs", "swine", "hog", "sow", "boar", "piglet"])]

/-- Breed vocabulary of `_extract_search_terms` (ai.py lines 103-109). -/
def breed_keywords : List String :=
  ["boer", "kalahari", "red", "sokoto", "west african dwarf", "wad",
   "brahman", "white fulani", "ndama", "muturu", "bunaji",
   "dorper", "balami", "yankasa", "uda",
   "noiler", "broiler", "layer", "cockerel",
   "large white", "landrace", "duroc"]

/-- Male gender keywords (ai.py line 113). -/
def male_keywords : List String :=
  ["male", "buck", "bull", "ram", "boar", "rooster", "cock", "he"]

/-- Female gender keywords (ai.py line 114). -/
def female_keywords : List String :=
  ["female", "doe", "cow", "ewe", "sow", "hen", "she"]

/-- Gender map of `_extract_search_terms` in insertion order: male first. -/
def gender_map : List (String × List String) :=
  [("male", male_keywords), ("female", female_keywords)]

/-- Quality/health vocabulary (ai.py lines 118-121). -/
def quality_keywords : List String :=
  ["healthy", "vaccinated", "premium", "quality", "investment", "breeding",
   "purebred", "pure", "registered", "certified", "organic"]

/-- Gazetteer of Nigerian locations (ai.py lines 175-179 and 688-692). -/
def nigerian_locations : List String :=
  ["lagos", "abuja", "kano", "ibadan", "kaduna", "port harcourt", "benin",
   "maiduguri", "zaria", "aba", "jos", "ilorin", "oyo", "enugu", "abeokuta",
   "sokoto", "onitsha", "warri", "calabar", "uyo", "asaba", "owerri"]

/-- Stop-word set of `_extract_search_terms` (ai.py lines 185-200). -/
def stopwords : List String :=
  ["a", "an", "the", "is", "are", "was", "were", "be", "been",
   "being", "have", "has", "had", "do", "does", "did", "will",
   "would", "could", "should", "may", "might", "must", "shall",
   "can", "need", "dare", "ought", "used", "to", "of", "in", "for",
   "on", "with", "at", "by", "from", "as", "into", "through",
   "during", "before", "after", "above", "below", "between",
   "under", "again", "further", "then", "once", "here", "there",
   "when", "where", "why", "how", "all", "each", "few", "more",
   "most", "other", "some", "such", "no", "nor", "not", "only",
   "own", "same", "so", "than", "too", "very", "just", "and",
   "but", "if", "or", "because", "until", "while", "although",
   "find", "me", "show", "get", "looking", "want", "search",
   "give", "tell", "about", "what", "which", "any", "good", "best",
   "i", "my", "your", "like", "please"]

/-- Structured criteria produced by `_extract_search_terms`. -/
structure Extracted where
  categories : List String
  breeds : List String
  gender : Option String
  quality_terms : List String
  price_range : Option (String × Nat)
  location_terms : List String
  general_terms : List String
deriving DecidableEq, Repr

/-- Gender extraction loop of `_extract_search_terms` (ai.py lines 147-150):
first entry of the gender map with a matching keyword wins, then the loop
breaks. -/
def extractGender (ql : List Char) : Option String :=
  (gender_map.find? (fun p => p.2.any (fun kw => containsKw ql kw))).map
    (fun p => if p.1 == "male" then "M" else "F")

/-- Price-range extraction of `_extract_search_terms` (ai.py lines 158-172):
the `under` regex is evaluated first, then the `above` regex overwrites the
slot when it also matches. -/
def extractPriceRange (ql : List Char) : Option (String × Nat) :=
  let pu := searchPrice "under" ql
  let pa := searchPrice "above" ql
  match pa with
  | some n => some ("min", n)
  | none =>
    match pu with
    | some n => some ("max", n)
    | none => none

/-- General-term loop of `_extract_search_terms` (ai.py lines 201-212):
words of length > 2, not stop words, not among the already-extracted breeds
or quality terms, and not occurring in any category keyword list. -/
def extractGeneralTerms (ql : List Char) (breeds quality : List String) : List String :=
  (findWords ql).filter (fun w =>
    !(stopwords.contains w) && decide (2 < w.length) &&
    !(breeds.contains w) && !(quality.contains w) &&
    !(category_keywords.any (fun p => p.2.contains w)))

/-- AIService._extract_search_terms (ai.py lines 86-214). -/
def extract_search_terms (query : String) : Extracted :=
  let ql := lc query
  let categories := (category_keywords.filter
    (fun p => p.2.any (fun kw => containsKw ql kw))).map (fun p => p.1)
  let breeds := breed_keywords.filter (fun b => containsKw ql b)
  let quality := quality_keywords.filter (fun t => containsKw ql t)
  { categories := categories
    breeds := breeds
    gender := extractGender ql
    quality_terms := quality
    price_range := extractPriceRange ql
    location_terms := nigerian_locations.filter (fun loc => containsKw ql loc)
    general_terms := extractGeneralTerms ql breeds quality }

/-- Optional queryset filter: Python `if terms[k]: queryset = queryset.filter(p)`
for an optional field that is truthy whenever present. -/
def optFilter (o : Option β) (p : β → α → Bool) (l : List α) : List α :=
  match o with
  | some b => l.filter (p b)
  | none => l

theorem optFilter_subset (o : Option β) (p : β → α → Bool) (l : List α) :
    ∀ x ∈ optFilter o p l, x ∈ l := by
  intro x hx
  cases o with
  | none => exact hx
  | some b => exact List.mem_of_mem_filter hx

/-- Availability filter `Livestock.objects.filter(is_sold=False)`. -/
def availLivestock (db : List LivestockRec) : List LivestockRec :=
  db.filter (fun r => r.is_sold == false)

/-- Category OR-predicate (ai.py lines 236-240). -/
def catPred (cats : List String) (r : LivestockRec) : Bool :=
  cats.any (fun c => icontains r.category_name c)

/-- Breed OR-predicate (ai.py lines 243-247). -/
def breedPred (breeds : List String) (r : LivestockRec) : Bool :=
  breeds.any (fun b => icontains r.breed b)

/-- Location OR-predicate (ai.py lines 262-266). -/
def locPred (locs : List String) (r : LivestockRec) : Bool :=
  locs.any (fun loc => icontains r.location loc)

/-- Quality/general-term OR-predicate across name, description, breed,
health status and tag names (ai.py lines 269-280). -/
def textPred (ts : List String) (r : LivestockRec) : Bool :=
  ts.any (fun t =>
    icontains r.name t || icontains r.description t || icontains r.breed t ||
    icontains r.health_status t || r.tags.any (fun tg => icontains tg t))

/-- Broad-tier OR-predicate across name, breed, description, category name
and location (ai.py lines 289-297). -/
def broadPred (ws : List String) (r : LivestockRec) : Bool :=
  ws.any (fun w =>
    icontains r.name w || icontains r.breed w || icontains r.description w ||
    icontains r.category_name w || icontains r.location w)

/-- Strict tier-1 queryset of `semantic_search` (ai.py lines 232-280): the
availability filter followed by each populated criteria filter, innermost
first (category, breed, gender, price, location, then quality/general
text). -/
def strictQuery (db : List LivestockRec) (t : Extracted) : List LivestockRec :=
  maybeFilter (!(t.quality_terms ++ t.general_terms).isEmpty)
    (textPred (t.quality_terms ++ t.general_terms))
    (maybeFilter (!t.location_terms.isEmpty) (locPred t.location_terms)
      (optFilter t.price_range
        (fun pr r => if pr.1 == "max" then decide (r.price ≤ (pr.2 : Int))
                     else decide ((pr.2 : Int) ≤ r.price))
        (optFilter t.gender (fun g r => r.gender == g)
          (maybeFilter (!t.breeds.isEmpty) (breedPred t.breeds)
            (maybeFilter (!t.categories.isEmpty) (catPred t.categories)
              (availLivestock db))))))

/-- Recency order `order_by('-created_at')`. -/
def livestockGt (a b : LivestockRec) : Bool := decide (b.created_at < a.created_at)

/-- Tier-3 fallback of `semantic_search` (ai.py lines 307-313): most recent
available items. -/
def fallbackLivestock (db : List LivestockRec) (limit : Nat) : List LivestockRec :=
  (sortByGt livestockGt (availLivestock db)).take limit

/-- Tier-2 broad search of `semantic_search` (ai.py lines 285-304): first 5
words of length at least 3, OR-matched over the available catalog; empty
when the query has no such word. -/
def broadTier (db : List LivestockRec) (query : String) (limit : Nat) : List LivestockRec :=
  let words := findWords3 (lc query)
  if words.isEmpty then []
  else ((availLivestock db).filter (broadPred (words.take 5))).take limit

/-- Tiers 1 and 2 of `semantic_search` (ai.py lines 282-304): the broad
search replaces the strict result only when the strict result is empty and
the stripped query is non-empty. -/
def tier12 (db : List LivestockRec) (query : String) (limit : Nat) :
    List LivestockRec :=
  if ((strictQuery db (extract_search_terms query)).take limit).isEmpty &&
     !(pyStrip query).isEmpty
  then broadTier db query limit
  else (strictQuery db (extract_search_terms query)).take limit

/-- AIService.semantic_search (ai.py lines 216-315). -/
def semantic_search (db : List LivestockRec) (query : String) (limit : Nat) :
    List LivestockRec :=
  if (tier12 db query limit).isEmpty then fallbackLivestock db limit
  else tier12 db query limit

/-- Egg criteria produced by `_extract_egg_search_terms`. -/
structure EggExtracted where
  category : Option String
  egg_type : Option String
  size : Option String
  packaging : Option String
  freshness : Option String
  price_max : Option Nat
  location_terms : List String
deriving DecidableEq, Repr

/-- Bird-type keyword table of `_extract_egg_search_terms` (ai.py lines
626-633), in source order. -/
def egg_category_map : List (String × List String) :=
  [("chicken", ["chicken", "chickens", "broiler", "layer", "hen", "rooster", "noiler"]),
   ("turkey", ["turkey", "turkeys"]),
   ("quail", ["quail", "quails"]),
   ("duck", ["duck", "ducks"]),
   ("guinea-fowl", ["guinea", "guinea fowl", "guinea-fowl"]),
   ("goose", ["goose", "geese"])]

/-- Size keyword table of `_extract_egg_search_terms` (ai.py lines 650-656),
in source (insertion) order: small, medium, large, extra_large, jumbo. -/
def size_keywords : List (String × List String) :=
  [("small", ["small"]),
   ("medium", ["medium"]),
   ("large", ["large", "big"]),
   ("extra_large", ["extra large", "extra-large", "xl"]),
   ("jumbo", ["jumbo"])]

/-- AIService._extract_egg_search_terms (ai.py lines 608-697).  The unused
`general_terms` slot of the returned dict is omitted. -/
def extract_egg_search_terms (query : String) : EggExtracted :=
  let ql := lc query
  { category := (egg_category_map.find?
      (fun p => p.2.any (fun kw => containsKw ql kw))).map (fun p => p.1)
    egg_type :=
      if containsKw ql "fertilized" || containsKw ql "hatching" || containsKw ql "incubat" then
        some "fertilized"
      else if containsKw ql "organic" then some "organic"
      else if containsKw ql "free range" || containsKw ql "free-range" then some "free_range"
      else if containsKw ql "table" || containsKw ql "eating" || containsKw ql "consumption" then
        some "table"
      else none
    size := (size_keywords.find?
      (fun p => p.2.any (fun kw => containsKw ql kw))).map (fun p => p.1)
    packaging :=
      if containsKw ql "crate" then
        if containsKw ql "30" || containsKw ql "full" then some "crate_30"
        else if containsKw ql "15" || containsKw ql "half" then some "half_crate_15"
        else none
      else if containsKw ql "tray" then
        if containsKw ql "30" then some "tray_30"
        else if containsKw ql "12" || containsKw ql "dozen" then some "tray_12"
        else none
      else none
    freshness := if containsKw ql "fresh" || containsKw ql "new" then some "fresh" else none
    price_max := searchPriceEgg ql
    location_terms := nigerian_locations.filter (fun loc => containsKw ql loc) }

/-- Stop-word set of the egg text search (ai.py line 744). -/
def egg_stopwords : List String :=
  ["egg", "eggs", "the", "for", "and", "want", "need", "find", "show", "get", "looking"]

/-- Availability filter `Egg.objects.filter(is_available=True)`. -/
def availEggs (db : List EggRec) : List EggRec :=
  db.filter (fun e => e.is_available == true)

/-- Egg location OR-predicate (ai.py lines 736-740). -/
def locPredE (locs : List String) (e : EggRec) : Bool :=
  locs.any (fun loc => icontains e.location loc)

/-- Egg text-search OR-predicate across name, breed, description and
category name (ai.py lines 747-756). -/
def eggTextPred (ws : List String) (e : EggRec) : Bool :=
  ws.any (fun w =>
    icontains e.name w || icontains e.breed w || icontains e.description w ||
    icontains e.category_name w)

/-- Freshness-window predicate `expiry_date__gt=today + timedelta(days=7)`
(ai.py lines 727-729); a NULL expiry date never satisfies a gt lookup. -/
def freshExpiryPred (today : Int) (e : EggRec) : Bool :=
  match e.expiry_date with
  | some d => decide (today + 7 < d)
  | none => false

/-- Price-ceiling filter of `semantic_search_eggs` (ai.py lines 732-733).
A zero ceiling is falsy in Python and skips the filter. -/
def eggPriceFilter (price_max : Option Nat) (l : List EggRec) : List EggRec :=
  match price_max with
  | some m => if m == 0 then l else l.filter (fun e => decide (e.price ≤ (m : Int)))
  | none => l

theorem eggPriceFilter_subset (price_max : Option Nat) (l : List EggRec) :
    ∀ x ∈ eggPriceFilter price_max l, x ∈ l := by
  intro x hx
  cases price_max with
  | none => exact hx
  | some m =>
      simp only [eggPriceFilter] at hx
      by_cases h : (m == 0) = true
      · rw [if_pos h] at hx; exact hx
      · rw [if_neg h] at hx; exact List.mem_of_mem_filter hx

/-- Strict criteria filters of `semantic_search_eggs` (ai.py lines 708-740):
category slug, egg type, size, packaging, freshness window, price ceiling
and location, over the available catalog, innermost first. -/
def eggStrictQuery (db : List EggRec) (t : EggExtracted) (today : Int) : List EggRec :=
  maybeFilter (!t.location_terms.isEmpty) (locPredE t.location_terms)
    (eggPriceFilter t.price_max
      (maybeFilter (t.freshness == some "fresh") (freshExpiryPred today)
        (optFilter t.packaging (fun s e => e.packaging == s)
          (optFilter t.size (fun s e => e.size == s)
            (optFilter t.egg_type (fun s e => e.egg_type == s)
              (optFilter t.category (fun s e => e.category_slug == s)
                (availEggs db)))))))

/-- Search words of the egg text filter (ai.py lines 743-745): first 5 words
of length at least 3, minus the egg stop words. -/
def eggSearchWords (query : String) : List String :=
  ((findWords3 (lc query)).take 5).filter (fun w => !(egg_stopwords.contains w))

/-- Single combined queryset of `semantic_search_eggs` (ai.py lines 706-756):
the strict criteria filters and the general-word text filter are conjoined
into one query. -/
def eggCombinedQuery (db : List EggRec) (query : String) (today : Int) : List EggRec :=
  maybeFilter (!(eggSearchWords query).isEmpty) (eggTextPred (eggSearchWords query))
    (eggStrictQuery db (extract_egg_search_terms query) today)

/-- Featured-then-recent order `order_by('-is_featured', '-created_at')`. -/
def eggGt (a b : EggRec) : Bool :=
  let fa : Nat := if a.is_featured then 1 else 0
  let fb : Nat := if b.is_featured then 1 else 0
  decide (fb < fa) || (fa == fb && decide (b.created_at < a.created_at))

/-- Fallback of `semantic_search_eggs` (ai.py lines 761-767): featured then
recent available eggs. -/
def eggFallback (db : List EggRec) (limit : Nat) : List EggRec :=
  (sortByGt eggGt (availEggs db)).take limit

/-- AIService.semantic_search_eggs (ai.py lines 699-769). -/
def semantic_search_eggs (db : List EggRec) (query : String) (today : Int)
    (limit : Nat) : List EggRec :=
  if ((eggCombinedQuery db query today).take limit).isEmpty then eggFallback db limit
  else (eggCombinedQuery db query today).take limit

/-- Modelled from the spec: the broad tier 2 that claim C2 attributes to the
egg engine — tokenize the raw query into words of length at least 3, take
the first 5, and OR-match each across name, breed, description and category
name with no constraint other than availability. -/
def eggTier2Spec (db : List EggRec) (query : String) (limit : Nat) : List EggRec :=
  let words := findWords3 (lc query)
  ((availEggs db).filter (eggTextPred (words.take 5))).take limit

/-- Modelled from the spec: tiers 1 and 2 of the egg engine that claim C2
asserts the code implements. -/
def eggSpecTier12 (db : List EggRec) (query : String) (today : Int)
    (limit : Nat) : List EggRec :=
  if ((eggStrictQuery db (extract_egg_search_terms query) today).take limit).isEmpty &&
     !(pyStrip query).isEmpty
  then eggTier2Spec db query limit
  else (eggStrictQuery db (extract_egg_search_terms query) today).take limit

/-- Modelled from the spec: the three-tier egg engine that claim C2 asserts
the code implements — strict tier, then the broad tier when the strict tier
is empty and the raw query non-empty, then the featured/recent fallback. -/
def eggSearchSpecTiered (db : List EggRec) (query : String) (today : Int)
    (limit : Nat) : List EggRec :=
  if (eggSpecTier12 db query today limit).isEmpty then eggFallback db limit
  else eggSpecTier12 db query today limit

/-- Egg.shelf_life_days (models.py lines 206-211): day count from production
to expiry, None when either date is missing.  Dates are day numbers. -/
def shelf_life_days (production_date expiry_date : Option Int) : Option Int :=
  match production_date, expiry_date with
  | some p, some e => some (e - p)
  | _, _ => none

/-- Egg.days_until_expiry (models.py lines 213-220): days remaining until
expiry, None when the expiry date is missing. -/
def days_until_expiry (expiry_date : Option Int) (today : Int) : Option Int :=
  match expiry_date with
  | some e => some (e - today)
  | none => none

/-- Egg.freshness_status (models.py lines 222-237). -/
def freshness_status (expiry_date : Option Int) (today : Int) : String :=
  match days_until_expiry expiry_date today with
  | none => "unknown"
  | some days_left =>
    if days_left < 0 then "expired"
    else if days_left ≤ 3 then "expiring_soon"
    else if days_left ≤ 7 then "use_soon"
    else "fresh"

/-- Test whether `2 ^ e ≤ n / d` for positive naturals `n`, `d` and an
integer exponent `e`. -/
def pow2le (e : Int) (n d : Nat) : Bool :=
  if 0 ≤ e then d * 2 ^ e.toNat ≤ n else d ≤ n * 2 ^ (-e).toNat

/-- Fuel-driven floor of log2, structurally recursive so that the kernel
can evaluate it. -/
def log2fuel : Nat → Nat → Nat
  | 0, _ => 0
  | fuel + 1, n => if n < 2 then 0 else log2fuel fuel (n / 2) + 1

/-- Floor of the base-2 logarithm of a positive natural. -/
def natLog2 (n : Nat) : Nat := log2fuel n n

/-- Floor of the base-2 logarithm of `n / d` for positive naturals: the
integer log difference is off by at most one, fixed by direct tests. -/
def ratLog2 (n d : Nat) : Int :=
  let c : Int := (natLog2 n : Int) - (natLog2 d : Int)
  if pow2le (c + 1) n d then c + 1
  else if pow2le c n d then c
  else c - 1

/-- Round `n / d` (positive naturals) to a 53-bit significand with
round-to-nearest, ties-to-even — the IEEE binary64 rounding of a real
quotient, returned as a dyadic pair (mantissa, exponent) whose value is
`m * 2 ^ e`.  Exponent range is unbounded here; overflow and subnormals are
unreachable for the calendar-day magnitudes these functions receive. -/
def divRound53 (n d : Nat) : Nat × Int :=
  let e2 := ratLog2 n d
  let s : Int := 52 - e2
  let N := if 0 ≤ s then n * 2 ^ s.toNat else n
  let D := if 0 ≤ s then d else d * 2 ^ (-s).toNat
  let q := N / D
  let r := N % D
  let m := if D < 2 * r then q + 1
           else if 2 * r < D then q
           else if q % 2 == 1 then q + 1 else q
  (m, e2 - 52)

/-- IEEE binary64 rounding of a natural number (round-to-nearest,
ties-to-even), as a dyadic pair; exact whenever `n < 2 ^ 53`. -/
def intRound53 (n : Nat) : Nat × Int := divRound53 n 1

/-- Python `int((remaining / shelf_life) * 100)` for non-negative
`remaining` and positive `shelf_life`: the true division produces the
binary64 rounding of the quotient, the product with 100 is again rounded to
binary64, and `int` truncates (floors, the value being non-negative). -/
def pyFloatPercent (remaining shelf_life : Nat) : Nat :=
  if remaining == 0 then 0
  else
    let p := divRound53 remaining shelf_life
    let p2 := intRound53 (p.1 * 100)
    let E := p.2 + p2.2
    if 0 ≤ E then p2.1 * 2 ^ E.toNat else p2.1 / 2 ^ (-E).toNat

/-- Egg.freshness_percentage (models.py lines 239-248): Python's
`min(100, int((remaining / shelf_life) * 100))` with `remaining =
max(0, days_until_expiry)`, where the division and the product are
double-precision operations and `int` truncates. -/
def freshness_percentage (production_date expiry_date : Option Int) (today : Int) :
    Option Int :=
  match shelf_life_days production_date expiry_date,
        days_until_expiry expiry_date today with
  | some shelf_life, some days_left =>
    if shelf_life ≤ 0 then none
    else some ((min 100 (pyFloatPercent (max 0 days_left).toNat shelf_life.toNat) : Nat) : Int)
  | _, _ => none

/-- Modelled from the spec: the freshness-percentage formula asserted by
claim C8, `clamp(0, 100, round(100 × max(0, daysUntilExpiry) / shelfLifeDays))`,
with rounding to the nearest integer. -/
def freshness_percentage_spec (production_date expiry_date : Option Int)
    (today : Int) : Option Int :=
  match shelf_life_days production_date expiry_date,
        days_until_expiry expiry_date today with
  | some shelf_life, some days_left =>
    if shelf_life ≤ 0 then none
    else
      let a := (100 * max 0 days_left).toNat
      let b := shelf_life.toNat
      some (min 100 (max 0 ((2 * a + b) / (2 * b) : Nat)))
  | _, _ => none

/-- Conversation message `{"role": ..., "content": ...}` (ai.py line 11). -/
structure Turn where
  role : String
  content : String
deriving DecidableEq, Repr

/-- Last `n` elements of a list, modelling Python's `l[-n:]`. -/
def lastN (l : List α) (n : Nat) : List α := l.drop (l.length - n)

/-- Fail-soft apology returned or yielded on any provider error (ai.py
lines 357 and 404). -/
def apology : String :=
  "I apologize, but I'm having trouble connecting right now. Please try again in a moment."

/-- Message-list construction shared by `generate_chat_response` and
`generate_chat_response_stream` (ai.py lines 332-345 and 374-387): the
system prompt, then the last 20 turns of the conversation history (None
defaults to the empty list), then the current user message. -/
def build_chat_messages (system_prompt : String)
    (conversation_history : Option (List Turn)) (message : String) : List Turn :=
  let history := conversation_history.getD []
  ⟨"system", system_prompt⟩ :: (lastN history 20 ++ [⟨"user", message⟩])

/-- AIService.generate_chat_response (ai.py lines 317-357) with the
completion provider abstracted as a function from the message list to a
result, and the inventory-dependent system prompt abstracted as a string:
a single provider call whose failure is converted to the apology. -/
def generate_chat_response (provider : List Turn → Except String String)
    (system_prompt : String) (message : String)
    (conversation_history : Option (List Turn)) : String :=
  match provider (build_chat_messages system_prompt conversation_history message) with
  | Except.ok text => text
  | Except.error _ => apology

/-- Chunks actually yielded from a provider stream (ai.py lines 398-400): a
chunk is forwarded only when it has choices with truthy (non-empty) delta
content; `none` models a chunk without usable content. -/
def yieldedChunks (chunks : List (Option String)) : List String :=
  chunks.filterMap (fun o => o.bind (fun c => if c == "" then none else some c))

/-- AIService.generate_chat_response_stream (ai.py lines 359-404) with the
provider stream abstracted as the chunks produced before an optional error:
the yielded sequence forwards the usable chunks and, on an error, ends with
exactly one apology chunk. -/
def generate_chat_response_stream (chunks : List (Option String))
    (streamError : Option String) : List String :=
  yieldedChunks chunks ++
    (match streamError with
     | some _ => [apology]
     | none => [])

/-- Exception raised when `_build_system_prompt` iterates the caller's
history dicts as Egg objects: `egg.freshness_status` on a dict raises
AttributeError (ai.py lines 522-524). -/
def attributeErrorMsg : String := "AttributeError: freshness_status"

/-- ChatView.send (views.py lines 64-85) at the message-list level: the view
calls `generate_chat_response(message, context_results, conversation_history)`,
whose third positional argument binds to the `context_eggs` parameter, so the
`conversation_history` parameter keeps its default None.  Before any message
list is built, `_build_system_prompt` renders the egg-matches section from
that slot (ai.py line 335 then 519-577): an empty list is falsy and renders
the no-matches line, while a non-empty history list raises AttributeError at
`egg.freshness_status`, which propagates out of the view.  The
inventory-summary sections are abstracted into the `system_prompt` string. -/
def chatView_send_messages (system_prompt message : String)
    (caller_history : List Turn) : Except String (List Turn) :=
  if caller_history.isEmpty then
    Except.ok (build_chat_messages system_prompt none message)
  else Except.error attributeErrorMsg

/-- ChatView.stream (views.py lines 87-134) at the message-list level: the
same positional call shape as ChatView.send (views.py lines 114-118), with
the same AttributeError on a non-empty history — the SSE generator catches
it and emits an error event instead of chunks (views.py lines 124-126), so
again no message list is built. -/
def chatView_stream_messages (system_prompt message : String)
    (caller_history : List Turn) : Except String (List Turn) :=
  if caller_history.isEmpty then
    Except.ok (build_chat_messages system_prompt none message)
  else Except.error attributeErrorMsg

theorem mem_availLivestock {db : List LivestockRec} {x : LivestockRec}
    (hx : x ∈ availLivestock db) : x.is_sold = false := by
  unfold availLivestock at hx
  have := (List.mem_filter.mp hx).2
  simpa using this

theorem mem_availEggs {db : List EggRec} {x : EggRec}
    (hx : x ∈ availEggs db) : x.is_available = true := by
  unfold availEggs at hx
  have := (List.mem_filter.mp hx).2
  simpa using this

theorem strictQuery_subset (db : List LivestockRec) (t : Extracted) :
    ∀ x ∈ strictQuery db t, x ∈ availLivestock db := by
  intro x hx
  unfold strictQuery at hx
  exact maybeFilter_subset _ _ _ x
    (maybeFilter_subset _ _ _ x
      (optFilter_subset _ _ _ x
        (optFilter_subset _ _ _ x
          (maybeFilter_subset _ _ _ x
            (maybeFilter_subset _ _ _ x hx)))))

theorem eggStrictQuery_subset (db : List EggRec) (t : EggExtracted) (today : Int) :
    ∀ x ∈ eggStrictQuery db t today, x ∈ availEggs db := by
  intro x hx
  unfold eggStrictQuery at hx
  exact optFilter_subset _ _ _ x
    (optFilter_subset _ _ _ x
      (optFilter_subset _ _ _ x
        (optFilter_subset _ _ _ x
          (maybeFilter_subset _ _ _ x
            (eggPriceFilter_subset _ _ x
              (maybeFilter_subset _ _ _ x hx))))))

theorem eggCombinedQuery_subset (db : List EggRec) (query : String) (today : Int) :
    ∀ x ∈ eggCombinedQuery db query today, x ∈ availEggs db := by
  intro x hx
  unfold eggCombinedQuery at hx
  exact eggStrictQuery_subset db _ today x (maybeFilter_subset _ _ _ x hx)

/-- Every branch of `semantic_search` is a `limit`-truncation of a sublist
of the available (unsold) catalog. -/
theorem semantic_search_shape (db : List LivestockRec) (query : String) (limit : Nat) :
    ∃ l, semantic_search db query limit = List.take limit l ∧
      ∀ x ∈ l, x ∈ availLivestock db := by
  unfold semantic_search
  by_cases h2 : (tier12 db query limit).isEmpty = true
  · rw [if_pos h2]
    exact ⟨sortByGt livestockGt (availLivestock db), rfl,
      fun x hx => mem_sortByGt.mp hx⟩
  · rw [if_neg h2]
    unfold tier12
    by_cases h1 : (((strictQuery db (extract_search_terms query)).take limit).isEmpty &&
        !(pyStrip query).isEmpty) = true
    · rw [if_pos h1]
      unfold broadTier
      by_cases h3 : (findWords3 (lc query)).isEmpty = true
      · rw [if_pos h3]
        exact ⟨[], by simp, by simp⟩
      · rw [if_neg h3]
        exact ⟨_, rfl, fun x hx => List.mem_of_mem_filter hx⟩
    · rw [if_neg h1]
      exact ⟨_, rfl, strictQuery_subset db _⟩

/-- Every branch of `semantic_search_eggs` is a `limit`-truncation of a
sublist of the available catalog. -/
theorem semantic_search_eggs_shape (db : List EggRec) (query : String)
    (today : Int) (limit : Nat) :
    ∃ l, semantic_search_eggs db query today limit = List.take limit l ∧
      ∀ x ∈ l, x ∈ availEggs db := by
  unfold semantic_search_eggs
  by_cases h : ((eggCombinedQuery db query today).take limit).isEmpty = true
  · rw [if_pos h]
    exact ⟨sortByGt eggGt (availEggs db), rfl, fun x hx => mem_sortByGt.mp hx⟩
  · rw [if_neg h]
    exact ⟨_, rfl, eggCombinedQuery_subset db query today⟩

/-- Example livestock row used to instantiate universally quantified
results on concrete inputs. -/
def exLivestock : LivestockRec :=
  { name := "Boer Buck", breed := "boer", description := "healthy goat",
    health_status := "good", location := "Lagos", category_name := "Goats",
    gender := "M", tags := [], price := 100, is_sold := false, created_at := 1 }

/-- Example egg row used to instantiate universally quantified results on
concrete inputs. -/
def exEgg : EggRec :=
  { name := "Fresh Crate", breed := "isa brown", description := "table eggs",
    location := "Lagos", category_name := "Chicken", category_slug := "chicken",
    egg_type := "table", size := "medium", packaging := "crate_30", price := 100,
    expiry_date := some 20, is_available := true, is_featured := false,
    created_at := 1 }

/-- C1: for every query string and every limit, `semantic_search` returns at
most `limit` livestock rows and every returned row has `is_sold = false`,
and `semantic_search_eggs` returns at most `limit` egg rows and every
returned row has `is_available = true`, whichever fallback tier produced
the results. -/
theorem search_results_bounded_and_available :
    (∀ (db : List LivestockRec) (query : String) (limit : Nat),
      (semantic_search db query limit).length ≤ limit ∧
      ∀ r ∈ semantic_search db query limit, r.is_sold = false) ∧
    (∀ (db : List EggRec) (query : String) (today : Int) (limit : Nat),
      (semantic_search_eggs db query today limit).length ≤ limit ∧
      ∀ e ∈ semantic_search_eggs db query today limit, e.is_available = true) := by
  constructor
  · intro db query limit
    obtain ⟨l, hl, hmem⟩ := semantic_search_shape db query limit
    refine ⟨?_, ?_⟩
    · rw [hl, List.length_take]
      exact min_le_left _ _
    · intro r hr
      rw [hl] at hr
      exact mem_availLivestock (hmem r (List.take_subset _ _ hr))
  · intro db query today limit
    obtain ⟨l, hl, hmem⟩ := semantic_search_eggs_shape db query today limit
    refine ⟨?_, ?_⟩
    · rw [hl, List.length_take]
      exact min_le_left _ _
    · intro e he
      rw [hl] at he
      exact mem_availEggs (hmem e (List.take_subset _ _ he))

/-- Witness: the C1 theorem applied to singleton catalogs and the empty
query, with the membership hypotheses discharged by evaluation. -/
theorem search_results_bounded_and_available_witness :
    exLivestock.is_sold = false ∧ exEgg.is_available = true :=
  ⟨(search_results_bounded_and_available.1 [exLivestock] "" 1).2 exLivestock (by decide),
   (search_results_bounded_and_available.2 [exEgg] "" 0 1).2 exEgg (by decide)⟩

/-- C3: intent detection is total, never yields both flags false, and maps
the three example queries as the spec states. -/
theorem detect_intent_total_never_both_false :
    (∀ query : String, ¬((detect_query_intent query).livestock = false ∧
      (detect_query_intent query).eggs = false)) ∧
    detect_query_intent "fresh eggs in Lagos" = ⟨false, true⟩ ∧
    detect_query_intent "Boer goat buck" = ⟨true, false⟩ ∧
    detect_query_intent "chicken for sale" = ⟨true, true⟩ := by
  refine ⟨?_, by decide, by decide, by decide⟩
  intro query
  simp only [detect_query_intent]
  split
  · simp
  · split
    · simp
    · split <;> simp

/-- Counterexample to C4: with a non-empty caller history, both chat views
raise AttributeError while building the system prompt — the history dicts
sit in the `context_eggs` slot and are iterated as Egg objects — so no
message list at all is built, contrary to the claim that the list
`[system, user]` is built whatever history the caller supplies. -/
theorem chat_history_breaks_prompt_building :
    chatView_send_messages "sys" "hello" [⟨"user", "earlier turn"⟩] =
      Except.error attributeErrorMsg ∧
    chatView_send_messages "sys" "hello" [⟨"user", "earlier turn"⟩] ≠
      Except.ok [⟨"system", "sys"⟩, ⟨"user", "hello"⟩] ∧
    chatView_stream_messages "sys" "hello" [⟨"user", "earlier turn"⟩] ≠
      Except.ok [⟨"system", "sys"⟩, ⟨"user", "hello"⟩] := by
  refine ⟨rfl, ?_, ?_⟩
  · intro h
    exact Except.noConfusion h
  · intro h
    exact Except.noConfusion h

/-- C4 amended: the caller-supplied history always binds to `context_eggs`,
leaving `conversation_history` at its default None.  With an empty caller
history the message list built is exactly one system message followed by
the current user message; with a non-empty history both views raise
AttributeError in `_build_system_prompt` before any message list exists.
In every case, any message list that is built contains no history turn. -/
theorem chat_views_history_amended (system_prompt message : String)
    (caller_history : List Turn) :
    (caller_history = [] →
      chatView_send_messages system_prompt message caller_history =
        Except.ok [⟨"system", system_prompt⟩, ⟨"user", message⟩] ∧
      chatView_stream_messages system_prompt message caller_history =
        Except.ok [⟨"system", system_prompt⟩, ⟨"user", message⟩]) ∧
    (caller_history ≠ [] →
      chatView_send_messages system_prompt message caller_history =
        Except.error attributeErrorMsg ∧
      chatView_stream_messages system_prompt message caller_history =
        Except.error attributeErrorMsg) ∧
    (∀ msgs, chatView_send_messages system_prompt message caller_history =
        Except.ok msgs → msgs = build_chat_messages system_prompt none message) := by
  refine ⟨?_, ?_, ?_⟩
  · intro h; subst h; exact ⟨rfl, rfl⟩
  · intro h
    have he : caller_history.isEmpty = false := by
      cases caller_history with
      | nil => exact absurd rfl h
      | cons a t => rfl
    constructor
    · simp [chatView_send_messages, he]
    · simp [chatView_stream_messages, he]
  · intro msgs hm
    unfold chatView_send_messages at hm
    by_cases he : caller_history.isEmpty = true
    · rw [if_pos he] at hm
      exact (Except.ok.inj hm).symm
    · rw [if_neg he] at hm
      exact absurd hm (by simp)

/-- Witness: the amended C4 theorem at an empty and at a one-turn caller
history. -/
theorem chat_views_history_amended_witness :
    chatView_send_messages "sys" "hi" [] =
      Except.ok [⟨"system", "sys"⟩, ⟨"user", "hi"⟩] ∧
    chatView_send_messages "sys" "hi" [⟨"user", "x"⟩] =
      Except.error attributeErrorMsg :=
  ⟨((chat_views_history_amended "sys" "hi" []).1 rfl).1,
   ((chat_views_history_amended "sys" "hi" [⟨"user", "x"⟩]).2.1 (by decide)).1⟩

/-- C5: freshness status is unknown without an expiry date, and otherwise
follows the expired / expiring-soon (0-3) / use-soon (4-7) / fresh (8+)
day boundaries. -/
theorem freshness_status_boundaries (expiry : Option Int) (today : Int) :
    (expiry = none → freshness_status expiry today = "unknown") ∧
    ∀ e, expiry = some e →
      ((e - today < 0 → freshness_status expiry today = "expired") ∧
       (0 ≤ e - today → e - today ≤ 3 → freshness_status expiry today = "expiring_soon") ∧
       (4 ≤ e - today → e - today ≤ 7 → freshness_status expiry today = "use_soon") ∧
       (8 ≤ e - today → freshness_status expiry today = "fresh")) := by
  constructor
  · intro h; subst h; rfl
  · intro e he; subst he
    simp only [freshness_status, days_until_expiry]
    refine ⟨fun h1 => ?_, fun h1 h2 => ?_, fun h1 h2 => ?_, fun h1 => ?_⟩
    · rw [if_pos h1]
    · rw [if_neg (by omega), if_pos h2]
    · rw [if_neg (by omega), if_neg (by omega), if_pos h2]
    · rw [if_neg (by omega), if_neg (by omega), if_neg (by omega)]

/-- Witness: the C5 theorem at the boundary inputs listed by the spec
(missing date, and day counts -1, 3, 7, 8). -/
theorem freshness_status_boundaries_witness :
    freshness_status none 0 = "unknown" ∧
    freshness_status (some 1) 2 = "expired" ∧
    freshness_status (some 5) 2 = "expiring_soon" ∧
    freshness_status (some 9) 2 = "use_soon" ∧
    freshness_status (some 10) 2 = "fresh" :=
  ⟨(freshness_status_boundaries none 0).1 rfl,
   ((freshness_status_boundaries (some 1) 2).2 1 rfl).1 (by decide),
   ((freshness_status_boundaries (some 5) 2).2 5 rfl).2.1 (by decide) (by decide),
   ((freshness_status_boundaries (some 9) 2).2 9 rfl).2.2.1 (by decide) (by decide),
   ((freshness_status_boundaries (some 10) 2).2 10 rfl).2.2.2 (by decide)⟩

/-- C9: provider failures never propagate — the non-streaming wrapper
returns the fixed apology on a provider error (and the provider text on
success), and the streaming wrapper ends with exactly one apology chunk on
a mid-stream error and adds nothing on normal completion. -/
theorem provider_failures_fail_soft :
    (∀ (err system_prompt message : String) (history : Option (List Turn)),
      generate_chat_response (fun _ => Except.error err) system_prompt message history =
        apology) ∧
    (∀ (text system_prompt message : String) (history : Option (List Turn)),
      generate_chat_response (fun _ => Except.ok text) system_prompt message history =
        text) ∧
    (∀ (chunks : List (Option String)) (err : String),
      generate_chat_response_stream chunks (some err) = yieldedChunks chunks ++ [apology]) ∧
    (∀ chunks : List (Option String),
      generate_chat_response_stream chunks none = yieldedChunks chunks) := by
  refine ⟨fun _ _ _ _ => rfl, fun _ _ _ _ => rfl, fun _ _ => rfl, fun chunks => ?_⟩
  simp [generate_chat_response_stream]

/-- Available chicken egg whose name matches the word "special". -/
def eggA : EggRec :=
  { name := "special offer", breed := "", description := "", location := "",
    category_name := "Chicken", category_slug := "chicken", egg_type := "table",
    size := "medium", packaging := "crate_30", price := 100, expiry_date := none,
    is_available := true, is_featured := false, created_at := 1 }

/-- Available chicken egg matching no word of the example queries. -/
def eggB : EggRec :=
  { eggA with name := "plain", created_at := 2 }

/-- Counterexample to C2: on the query "turkey special" the strict tier
(category slug turkey) is empty, yet the engine does not run the claimed
broad tier — it returns the featured/recent fallback, which contains
`eggB` although `eggB` matches no query word, while the claimed three-tier
engine would return only `eggA`. -/
theorem egg_engine_lacks_broad_tier :
    semantic_search_eggs [eggA, eggB] "turkey special" 0 10 = [eggB, eggA] ∧
    eggSearchSpecTiered [eggA, eggB] "turkey special" 0 10 = [eggA] ∧
    semantic_search_eggs [eggA, eggB] "turkey special" 0 10 ≠
      eggSearchSpecTiered [eggA, eggB] "turkey special" 0 10 := by
  decide

/-- C2 amended: the egg engine has two stages, not three — the general-word
text filter is conjoined with the strict criteria into one query, and when
that combined query is empty the engine falls back directly to the
featured-then-recent available eggs. -/
theorem egg_search_two_stage (db : List EggRec) (query : String) (today : Int)
    (limit : Nat) (h : eggCombinedQuery db query today = []) :
    semantic_search_eggs db query today limit = eggFallback db limit := by
  unfold semantic_search_eggs
  rw [h]
  simp

/-- Witness: the amended C2 theorem on a concrete catalog and query whose
combined strict-and-text query is empty. -/
theorem egg_search_two_stage_witness :
    semantic_search_eggs [eggA, eggB] "duck something" 0 10 =
      eggFallback [eggA, eggB] 10 :=
  egg_search_two_stage [eggA, eggB] "duck something" 0 10 (by decide)

/-- Counterexample to C6: the price regexes recognize only `under` and
`above`; a `below <number>` query yields no price bound at all rather than
the claimed (max, amount). -/
theorem price_below_not_recognized :
    (extract_search_terms "goats below 50k").price_range = none ∧
    (extract_search_terms "goats below 50k").price_range ≠ some ("max", 50000) := by
  decide

/-- C6 amended: `under <number>[k]` yields (max, amount) and
`above <number>[k]` yields (min, amount) — `below` is not recognized; a
`k` suffix multiplies by 1000 and commas are stripped; at most one bound is
retained, the above-pattern (evaluated last) winning when both match; and
"goats under 50k in Lagos" extracts (max, 50000), location ["lagos"] and
category ["goats"]. -/
theorem price_extraction_amended :
    (extract_search_terms "goats under 50k in Lagos").price_range = some ("max", 50000) ∧
    (extract_search_terms "goats under 50k in Lagos").location_terms = ["lagos"] ∧
    (extract_search_terms "goats under 50k in Lagos").categories = ["goats"] ∧
    (extract_search_terms "cows above 5k").price_range = some ("min", 5000) ∧
    (extract_search_terms "cows above 2,000").price_range = some ("min", 2000) ∧
    (extract_search_terms "hens under 1,500").price_range = some ("max", 1500) ∧
    (extract_search_terms "goats under 30 above 20").price_range = some ("min", 20) := by
  decide

/-- C7 fails on the code: `large` is checked before `extra_large` in the
size table and is a substring of the phrase "extra large", so every query
containing "extra large" extracts size large; the extra-large bucket is
reachable only through "xl". -/
theorem extra_large_shadowed_by_large :
    (extract_egg_search_terms "extra large eggs").size = some "large" ∧
    (extract_egg_search_terms "extra large eggs").size ≠ some "extra_large" ∧
    (extract_egg_search_terms "xl eggs").size = some "extra_large" := by
  decide

/-- Counterexample to C8: with two of three shelf-life days remaining the
code truncates 66.67 to 66 where the claimed rounding formula yields 67;
and with 29 of 100 days remaining the double-precision product is
28.999999999999996, truncated to 28, where the claimed formula yields 29. -/
theorem freshness_percentage_truncates :
    freshness_percentage (some 0) (some 3) 1 = some 66 ∧
    freshness_percentage_spec (some 0) (some 3) 1 = some 67 ∧
    freshness_percentage (some 0) (some 3) 1 ≠
      freshness_percentage_spec (some 0) (some 3) 1 ∧
    freshness_percentage (some 0) (some 100) 71 = some 28 ∧
    freshness_percentage_spec (some 0) (some 100) 71 = some 29 := by
  decide

/-- C8 amended: the freshness percentage is None exactly when the shelf
life is undefined or non-positive, and otherwise equals
min(100, int(fl(fl(max(0, daysUntilExpiry) / shelfLifeDays)) · 100)) where
fl is binary64 rounding — truncation of the double-precision product, not
rounding of the exact ratio. -/
theorem freshness_percentage_amended (production expiry : Option Int) (today : Int) :
    (freshness_percentage production expiry today = none ↔
      shelf_life_days production expiry = none ∨
      ∃ s, shelf_life_days production expiry = some s ∧ s ≤ 0) ∧
    ∀ s d, shelf_life_days production expiry = some s → 0 < s →
      days_until_expiry expiry today = some d →
      freshness_percentage production expiry today =
        some ((min 100 (pyFloatPercent (max 0 d).toNat s.toNat) : Nat) : Int) := by
  cases production with
  | none =>
      refine ⟨by simp [freshness_percentage, shelf_life_days], ?_⟩
      intro s d hs
      simp [shelf_life_days] at hs
  | some p =>
      cases expiry with
      | none =>
          refine ⟨by simp [freshness_percentage, shelf_life_days], ?_⟩
          intro s d hs
          simp [shelf_life_days] at hs
      | some e =>
          constructor
          · simp only [freshness_percentage, shelf_life_days, days_until_expiry]
            by_cases h : (e - p : Int) ≤ 0
            · simp [h]
            · simp [h]
          · intro s d hs hpos hd
            simp only [shelf_life_days, Option.some.injEq] at hs
            simp only [days_until_expiry, Option.some.injEq] at hd
            subst hs
            subst hd
            simp only [freshness_percentage, shelf_life_days, days_until_expiry]
            rw [if_neg (not_le.mpr hpos)]

/-- Witness: the amended C8 theorem at a ten-day shelf life with eight days
remaining (8/10 rounds to the double 0.8000000000000000444, whose product
with 100 rounds back down to exactly 80). -/
theorem freshness_percentage_amended_witness :
    freshness_percentage (some 0) (some 10) 2 = some 80 :=
  ((freshness_percentage_amended (some 0) (some 10) 2).2 10 8
    (by decide) (by decide) (by decide)).trans (by decide)

/-- C10: any query whose lowered text contains the substring "he" gets
gender M, because "he" sits in the male keyword list and that list is
checked first; gender F is returned only when a female keyword matches and
no male keyword does. -/
theorem gender_he_implies_male (q : String) :
    (containsKw (lc q) "he" = true → (extract_search_terms q).gender = some "M") ∧
    ((extract_search_terms q).gender = some "F" →
      (female_keywords.any fun kw => containsKw (lc q) kw) = true ∧
      (male_keywords.any fun kw => containsKw (lc q) kw) = false) := by
  have hg : (extract_search_terms q).gender = extractGender (lc q) := rfl
  rw [hg]
  by_cases hm : (male_keywords.any fun kw => containsKw (lc q) kw) = true
  · constructor
    · intro _
      simp only [extractGender, gender_map]
      rw [List.find?_cons_of_pos _ (by simpa using hm)]
      rfl
    · intro hf
      simp only [extractGender, gender_map] at hf
      rw [List.find?_cons_of_pos _ (by simpa using hm)] at hf
      exact absurd hf (by decide)
  · have hm' : (male_keywords.any fun kw => containsKw (lc q) kw) = false := by
      cases hval : (male_keywords.any fun kw => containsKw (lc q) kw) with
      | false => rfl
      | true => exact absurd hval hm
    constructor
    · intro hhe
      exact absurd (List.any_eq_true.mpr ⟨"he", by decide, hhe⟩) hm
    · intro hf
      refine ⟨?_, hm'⟩
      by_cases hfem : (female_keywords.any fun kw => containsKw (lc q) kw) = true
      · exact hfem
      · exfalso
        have hfem' : (female_keywords.any fun kw => containsKw (lc q) kw) = false := by
          cases hval : (female_keywords.any fun kw => containsKw (lc q) kw) with
          | false => rfl
          | true => exact absurd hval hfem
        simp only [extractGender, gender_map] at hf
        rw [List.find?_cons_of_neg _ (by simpa using hm'),
            List.find?_cons_of_neg _ (by simpa using hfem')] at hf
        simp at hf

/-- Witness: the C10 theorem at "sheep" (contains "he", gender M) and at
"doe" (female keyword, no male keyword substring). -/
theorem gender_he_implies_male_witness :
    (extract_search_terms "sheep").gender = some "M" ∧
    ((female_keywords.any fun kw => containsKw (lc "doe") kw) = true ∧
     (male_keywords.any fun kw => containsKw (lc "doe") kw) = false) :=
  ⟨(gender_he_implies_male "sheep").1 (by decide),
   (gender_he_implies_male "doe").2 (by decide)⟩

end Glafrica
